import Mathlib

/-!
Shallow embedding of the MediaConduit Replicate provider core
(src/ReplicateProvider.ts): catalog bootstrap, heuristic capability
classification, background discovery merge, configuration handling and
model resolution/dispatch. Definitions mirror the TypeScript source;
theorems settle the specification claims about them.
-/

namespace Replicate

/-- Capability tags of the host provider contract (MediaCapability). -/
inductive MediaCapability where
  | text_to_image
  | text_to_video
  | text_to_audio
  | image_to_image
  | image_to_video
  | video_to_video
deriving DecidableEq, Repr

/-- Parameter descriptor object as written in the provider parameter schemas. -/
structure ParamDescr where
  type : String
  description : Option String := none
  min : Option Rat := none
  max : Option Rat := none
  default : Option Rat := none
deriving DecidableEq, Repr

/-- Shared default parameter schema attached to every bootstrap catalog entry
(lines 250-256 of ReplicateProvider.ts). -/
def defaultParameters : List (String × ParamDescr) :=
  [ ("prompt", { type := "string", description := some "Text prompt for generation" }),
    ("width", { type := "number", min := some 128, max := some 2048, default := some 1024 }),
    ("height", { type := "number", min := some 128, max := some 2048, default := some 1024 }),
    ("num_inference_steps", { type := "number", min := some 1, max := some 100, default := some 50 }),
    ("guidance_scale", { type := "number", min := some 0, max := some 20, default := some (mkRat 15 2) }) ]

/-- ProviderModel record stored in the catalog (the discoveredModels map). -/
structure ProviderModel where
  id : String
  name : String
  description : Option String
  capabilities : List MediaCapability
  parameters : List (String × ParamDescr)
deriving DecidableEq, Repr

/-- One element of the hard-coded knownModels list in
initializeKnownReplicateModels. -/
structure KnownModelDef where
  id : String
  name : String
  description : String
  capabilities : List MediaCapability
deriving DecidableEq, Repr

/-- The fixed knownModels list (lines 148-242 of ReplicateProvider.ts). -/
def knownModels : List KnownModelDef :=
  [ { id := "black-forest-labs/flux-schnell", name := "FLUX.1 Schnell",
      description := "Fast and high-quality text-to-image generation",
      capabilities := [.text_to_image] },
    { id := "black-forest-labs/flux-dev", name := "FLUX.1 Dev",
      description := "FLUX.1 development model for text-to-image",
      capabilities := [.text_to_image] },
    { id := "stability-ai/sdxl", name := "Stable Diffusion XL",
      description := "Stable Diffusion XL for high-quality images",
      capabilities := [.text_to_image] },
    { id := "bytedance/sdxl-lightning-4step", name := "SDXL Lightning",
      description := "Ultra-fast SDXL in 4 steps",
      capabilities := [.text_to_image] },
    { id := "playgroundai/playground-v2.5-1024px-aesthetic", name := "Playground v2.5",
      description := "Aesthetic-focused image generation",
      capabilities := [.text_to_image] },
    { id := "lumalabs/dream-machine", name := "Luma Dream Machine",
      description := "High-quality text-to-video generation",
      capabilities := [.text_to_video] },
    { id := "minimax/video-01", name := "MiniMax Video-01",
      description := "Advanced text-to-video model",
      capabilities := [.text_to_video] },
    { id := "genmo/mochi-1-preview", name := "Mochi-1 Preview",
      description := "High-quality video generation model",
      capabilities := [.text_to_video] },
    { id := "meta/musicgen", name := "MusicGen",
      description := "Meta\x27s music generation model",
      capabilities := [.text_to_audio] },
    { id := "suno-ai/bark", name := "Bark",
      description := "Text-to-speech with voice cloning",
      capabilities := [.text_to_audio] },
    { id := "afiaka87/tortoise-tts", name := "Tortoise TTS",
      description := "High-quality text-to-speech",
      capabilities := [.text_to_audio] },
    { id := "nightmareai/real-esrgan", name := "Real-ESRGAN",
      description := "Image upscaling and enhancement",
      capabilities := [.image_to_image] },
    { id := "tencentarc/gfpgan", name := "GFPGAN",
      description := "Face restoration and enhancement",
      capabilities := [.image_to_image] },
    { id := "stability-ai/stable-video-diffusion", name := "Stable Video Diffusion",
      description := "Generate videos from images",
      capabilities := [.image_to_video] } ]

/-- Builds the ProviderModel stored for a known model definition
(the forEach body at lines 244-259). -/
def toProviderModel (modelDef : KnownModelDef) : ProviderModel :=
  { id := modelDef.id,
    name := modelDef.name,
    description := some modelDef.description,
    capabilities := modelDef.capabilities,
    parameters := defaultParameters }

/-- The catalog: the discoveredModels JavaScript Map, modelled as an
insertion-ordered association list with unique keys. -/
abbrev Catalog := List (String × ProviderModel)

/-- Map.has on the catalog. -/
def mapHas (m : Catalog) (k : String) : Bool :=
  m.any (fun p => p.1 == k)

/-- Map.get on the catalog. -/
def mapGet (m : Catalog) (k : String) : Option ProviderModel :=
  (m.find? (fun p => p.1 == k)).map Prod.snd

/-- Map.set on the catalog: replaces the binding in place when the key is
present, otherwise appends it (JavaScript Map insertion order). -/
def mapSet (m : Catalog) (k : String) (v : ProviderModel) : Catalog :=
  if m.any (fun p => p.1 == k) then
    m.map (fun p => if p.1 == k then (k, v) else p)
  else
    m ++ [(k, v)]

/-- The models getter: Array.from of the map values, in insertion order. -/
def models (catalog : Catalog) : List ProviderModel :=
  catalog.map Prod.snd

/-- initializeKnownReplicateModels: folds the fixed list into the empty
catalog with Map.set. -/
def initializeKnownReplicateModels : Catalog :=
  knownModels.foldl (fun acc modelDef => mapSet acc modelDef.id (toProviderModel modelDef)) []

/-- Catalog state right after the synchronous constructor bootstrap. -/
def initialCatalog : Catalog := initializeKnownReplicateModels

/-- getModelsForCapability: filters the models by capability membership. -/
def getModelsForCapability (catalog : Catalog) (capability : MediaCapability) : List ProviderModel :=
  (models catalog).filter (fun model => model.capabilities.contains capability)

/-- Lower-cases a string into its character list (the toLowerCase calls at
lines 500-501 of ReplicateProvider.ts). -/
def lc (s : String) : List Char :=
  s.data.map Char.toLower

/-- Checks whether the first list is a prefix of the second. -/
def isPrefixOfCL : List Char → List Char → Bool
  | [], _ => true
  | _ :: _, [] => false
  | p :: ps, c :: cs => p == c && isPrefixOfCL ps cs

/-- Checks whether the pattern occurs as a contiguous infix of the haystack. -/
def hasInfix (pat : List Char) : List Char → Bool
  | [] => pat.isEmpty
  | c :: cs => isPrefixOfCL pat (c :: cs) || hasInfix pat cs

/-- The String.includes check of the classifier, on lower-cased text. -/
def containsTok (hay : List Char) (pat : String) : Bool :=
  hasInfix pat.data hay

/-- Condition pushing TEXT_TO_IMAGE (lines 504-506): five substrings are
checked against the id and two different ones against the description. -/
def imageHit (modelId description : List Char) : Bool :=
  containsTok modelId "text-to-image" || containsTok modelId "txt2img" ||
    containsTok modelId "flux" || containsTok modelId "sdxl" ||
    containsTok modelId "stable-diffusion" ||
    containsTok description "text to image" || containsTok description "generate image"

/-- Condition pushing TEXT_TO_VIDEO (lines 510-511). -/
def videoHit (modelId description : List Char) : Bool :=
  containsTok modelId "text-to-video" || containsTok modelId "video" ||
    containsTok description "text to video" || containsTok description "video generation"

/-- Condition pushing TEXT_TO_AUDIO (lines 515-516): tts is checked in the id
only, not in the description. -/
def audioHit (modelId description : List Char) : Bool :=
  containsTok modelId "music" || containsTok modelId "audio" ||
    containsTok modelId "speech" || containsTok modelId "tts" ||
    containsTok description "music" || containsTok description "audio" ||
    containsTok description "speech"

/-- Condition pushing IMAGE_TO_IMAGE (lines 520-521). -/
def enhanceHit (modelId description : List Char) : Bool :=
  containsTok modelId "upscale" || containsTok modelId "enhance" ||
    containsTok modelId "restore" ||
    containsTok description "upscale" || containsTok description "enhance" ||
    containsTok description "restore"

/-- Condition pushing IMAGE_TO_VIDEO (lines 525-526). -/
def i2vHit (modelId description : List Char) : Bool :=
  containsTok modelId "image-to-video" || containsTok description "image to video"

/-- Record shape of one entry of the remote listing response
(id, name, description, parameters all possibly absent). -/
structure ModelData where
  id : Option String := none
  name : Option String := none
  description : Option String := none
  parameters : Option (List (String × ParamDescr)) := none
deriving DecidableEq, Repr

/-- inferCapabilitiesFromModel (lines 498-536): pushes each matching
capability in source order and falls back to TEXT_TO_IMAGE when no
condition fired. -/
def inferCapabilitiesFromModel (modelData : ModelData) : List MediaCapability :=
  let modelId := lc (modelData.id.getD "")
  let description := lc (modelData.description.getD "")
  let capabilities : List MediaCapability := []
  let capabilities := if imageHit modelId description then capabilities ++ [.text_to_image] else capabilities
  let capabilities := if videoHit modelId description then capabilities ++ [.text_to_video] else capabilities
  let capabilities := if audioHit modelId description then capabilities ++ [.text_to_audio] else capabilities
  let capabilities := if enhanceHit modelId description then capabilities ++ [.image_to_image] else capabilities
  let capabilities := if i2vHit modelId description then capabilities ++ [.image_to_video] else capabilities
  if capabilities.isEmpty then [.text_to_image] else capabilities

/-- The trigger condition of one capability, per field, exactly as the code
checks it; VIDEO_TO_VIDEO is never pushed by the classifier. -/
def capTrigger (c : MediaCapability) (modelId description : List Char) : Bool :=
  match c with
  | .text_to_image => imageHit modelId description
  | .text_to_video => videoHit modelId description
  | .text_to_audio => audioHit modelId description
  | .image_to_image => enhanceHit modelId description
  | .image_to_video => i2vHit modelId description
  | .video_to_video => false

/-- JavaScript falsy-or on strings: the empty string falls through. -/
def jsOrS (s d : String) : String :=
  if s == "" then d else s

/-- JavaScript id.split('/').pop(): the characters after the last slash. -/
def lastSegment (s : String) : String :=
  String.mk ((s.data.reverse.takeWhile (fun c => c != '/')).reverse)

/-- Loop body of performModelDiscovery (lines 471-485): records with a falsy
id are skipped, records whose id is already a key are skipped, otherwise a
new entry is inserted with the name / description / parameters fallbacks. -/
def mergeDiscovered (catalog : Catalog) (modelData : ModelData) : Catalog :=
  match modelData.id with
  | none => catalog
  | some id =>
    if id == "" then catalog
    else if mapHas catalog id then catalog
    else
      mapSet catalog id
        { id := id,
          name := jsOrS (jsOrS (modelData.name.getD "") (lastSegment id)) id,
          description := some (jsOrS (modelData.description.getD "") ("Replicate model: " ++ id)),
          capabilities := inferCapabilitiesFromModel modelData,
          parameters := modelData.parameters.getD [] }

/-- performModelDiscovery (lines 460-493): folds every record of the listing
response into the catalog. -/
def performModelDiscovery (catalog : Catalog) (results : List ModelData) : Catalog :=
  results.foldl mergeDiscovered catalog

/-- ProviderConfig as passed to configure: credential and timing fields,
all possibly absent (and possibly falsy). -/
structure ProviderConfig where
  apiKey : Option String := none
  timeout : Option Nat := none
  retries : Option Nat := none
deriving DecidableEq, Repr

/-- ReplicateConfig handed to the ReplicateClient constructor. -/
structure ReplicateConfig where
  apiKey : String
  timeout : Nat
  retries : Nat
deriving DecidableEq, Repr

/-- Mutable provider fields relevant to configuration: the stored config and
the client (modelled by the config it was built from). -/
structure ProviderState where
  config : Option ProviderConfig := none
  client : Option ReplicateConfig := none
deriving DecidableEq, Repr

/-- JavaScript falsy-or on numbers: zero falls through to the default. -/
def jsOrNat (x : Option Nat) (d : Nat) : Nat :=
  match x with
  | none => d
  | some n => if n == 0 then d else n

/-- configure (lines 69-83): stores the new config first, then throws when
the credential is falsy, otherwise rebuilds the client. The second component
is the thrown error message, if any. -/
def configure (st : ProviderState) (config : ProviderConfig) : ProviderState × Option String :=
  let st1 : ProviderState := { st with config := some config }
  if config.apiKey.getD "" == "" then
    (st1, some "Replicate API token is required")
  else
    let replicateConfig : ReplicateConfig :=
      { apiKey := config.apiKey.getD "",
        timeout := jsOrNat config.timeout 600000,
        retries := jsOrNat config.retries 2 }
    ({ st1 with client := some replicateConfig }, none)

/-- Constructor auto-configuration from the environment (lines 47-61):
with a truthy REPLICATE_API_TOKEN the client and config are set, otherwise
both stay absent. -/
def initialState (envApiKey : Option String) : ProviderState :=
  if envApiKey.getD "" == "" then {}
  else
    { config := some { apiKey := envApiKey },
      client := some { apiKey := envApiKey.getD "", timeout := 600000, retries := 2 } }

/-- Errors getModel can throw. -/
inductive GetModelError where
  | notConfigured
  | notFound (id : String)
deriving DecidableEq, Repr

/-- The capability-specific wrapper getModel constructs, identified by the
wrapper class and the model id it receives. -/
inductive ModelWrapper where
  | replicateTextToImageModel (modelId : String)
  | replicateTextToVideoModel (modelId : String)
  | replicateTextToAudioModel (modelId : String)
deriving DecidableEq, Repr

/-- Resolution step of getModel (lines 122-125): Map.get, throwing when the
id is not a key. -/
def resolveModel (catalog : Catalog) (modelId : String) : Except GetModelError ProviderModel :=
  match mapGet catalog modelId with
  | none => Except.error (GetModelError.notFound modelId)
  | some model => Except.ok model

/-- getModel (lines 116-141): throws when no client is configured, resolves
the id, then dispatches on the first matching capability of the if-chain,
defaulting to the text-to-image wrapper. -/
def getModel (st : ProviderState) (catalog : Catalog) (modelId : String) :
    Except GetModelError ModelWrapper :=
  match st.client with
  | none => Except.error GetModelError.notConfigured
  | some _ =>
    match resolveModel catalog modelId with
    | Except.error e => Except.error e
    | Except.ok model =>
      let capabilities := model.capabilities
      if capabilities.contains .text_to_image then
        Except.ok (ModelWrapper.replicateTextToImageModel modelId)
      else if capabilities.contains .text_to_video then
        Except.ok (ModelWrapper.replicateTextToVideoModel modelId)
      else if capabilities.contains .text_to_audio then
        Except.ok (ModelWrapper.replicateTextToAudioModel modelId)
      else
        Except.ok (ModelWrapper.replicateTextToImageModel modelId)

/-- The fixed wrapper dispatch priority order of the spec. -/
def dispatchPriority : List MediaCapability :=
  [.text_to_image, .text_to_video, .text_to_audio]

/-- Wrapper class constructed for a given dispatch capability; anything other
than video and audio maps to the text-to-image wrapper. -/
def wrapperOf (c : MediaCapability) (modelId : String) : ModelWrapper :=
  match c with
  | .text_to_video => ModelWrapper.replicateTextToVideoModel modelId
  | .text_to_audio => ModelWrapper.replicateTextToAudioModel modelId
  | _ => ModelWrapper.replicateTextToImageModel modelId

/-- Eventual outcome of the remote listing call raced against the timeout:
it settles with records at some millisecond instant, fails at some instant,
or never settles. -/
inductive ListingOutcome where
  | settles (t : Nat) (results : List ModelData)
  | fails (t : Nat)
  | pending
deriving DecidableEq, Repr

/-- The 30000 ms timer of discoverModelsInBackground (line 445). -/
def discoveryTimeoutMs : Nat := 30000

/-- Whether the timeout settles first in the Promise.race (line 450). -/
def timeoutWinsRace (o : ListingOutcome) : Bool :=
  match o with
  | .settles t _ => decide (discoveryTimeoutMs < t)
  | .fails t => decide (discoveryTimeoutMs < t)
  | .pending => true

/-- Catalog state once the discovery continuation has run as far as it ever
will. The continuation of performModelDiscovery resumes whenever the listing
call settles — before or after the 30 s timer, because Promise.race only
bounds the await in discoverModelsInBackground and nothing guards the Map
mutations against a lost race. A failed listing is caught and swallowed in
performModelDiscovery; a listing that never settles never mutates. -/
def catalogAfterDiscovery (catalog : Catalog) (o : ListingOutcome) : Catalog :=
  match o with
  | .settles _ results => performModelDiscovery catalog results
  | .fails _ => catalog
  | .pending => catalog

/-- discoverModelsInBackground (lines 435-455): races discovery against the
timer inside a try/catch whose catch only logs, so it always returns
normally; the resulting catalog is independent of who wins the race. -/
def discoverModelsInBackgroundRun (catalog : Catalog) (o : ListingOutcome) :
    Except String Catalog :=
  Except.ok (catalogAfterDiscovery catalog o)

/-! Helper lemmas shared by the claim theorems. -/

/-- A value of the final fallback if-chain of the classifier is never nil. -/
theorem fallback_ifchain_ne_nil (l : List MediaCapability) :
    (if l.isEmpty then [MediaCapability.text_to_image] else l) ≠ [] := by
  cases l <;> simp

/-- The classifier never returns the empty capability list. -/
theorem inferCapabilities_ne_nil (r : ModelData) : inferCapabilitiesFromModel r ≠ [] :=
  fallback_ifchain_ne_nil _

/-- Every model of a catalog extended with Map.set is an old model or the
inserted value. -/
theorem mem_models_mapSet {catalog : Catalog} {k : String} {v m : ProviderModel}
    (hm : m ∈ models (mapSet catalog k v)) : m ∈ models catalog ∨ m = v := by
  unfold models mapSet at hm
  unfold models
  split at hm
  · rw [List.map_map] at hm
    rcases List.mem_map.1 hm with ⟨p, hp, he⟩
    by_cases hk : (p.1 == k) = true
    · simp only [Function.comp, hk, if_pos] at he
      exact Or.inr he.symm
    · simp only [Function.comp, hk, if_neg, Bool.not_eq_true] at he
      exact Or.inl (he ▸ List.mem_map_of_mem _ hp)
  · rw [List.map_append] at hm
    rcases List.mem_append.1 hm with h1 | h1
    · exact Or.inl h1
    · simp at h1
      exact Or.inr h1

/-- The merge step preserves non-emptiness of the capability sets. -/
theorem caps_ne_nil_merge {catalog : Catalog} (r : ModelData)
    (h : ∀ m ∈ models catalog, m.capabilities ≠ []) :
    ∀ m ∈ models (mergeDiscovered catalog r), m.capabilities ≠ [] := by
  intro m hm
  rcases hid : r.id with _ | id
  · simp only [mergeDiscovered, hid] at hm
    exact h m hm
  · simp only [mergeDiscovered, hid] at hm
    by_cases h0 : (id == "") = true
    · rw [if_pos h0] at hm
      exact h m hm
    · rw [if_neg h0] at hm
      by_cases hh : mapHas catalog id = true
      · rw [if_pos hh] at hm
        exact h m hm
      · rw [if_neg hh] at hm
        rcases mem_models_mapSet hm with hold | hnew
        · exact h m hold
        · rw [hnew]
          exact inferCapabilities_ne_nil r

/-- The whole discovery pass preserves non-emptiness of the capability sets. -/
theorem caps_ne_nil_discovery (rs : List ModelData) {catalog : Catalog}
    (h : ∀ m ∈ models catalog, m.capabilities ≠ []) :
    ∀ m ∈ models (performModelDiscovery catalog rs), m.capabilities ≠ [] := by
  induction rs generalizing catalog with
  | nil => exact h
  | cons r rs ih =>
    have hstep := caps_ne_nil_merge r h
    simpa [performModelDiscovery] using ih hstep

/-- Every bootstrap entry has a non-empty capability list. -/
theorem caps_ne_nil_initial : ∀ m ∈ models initialCatalog, m.capabilities ≠ [] := by
  decide

/-! Claim theorems. -/

/-- C6: the catalog bootstrap is deterministic and total: after construction
and before enrichment, the models are exactly the fixed hard-coded list, the
catalog size is the length of that list, and every entry has non-empty
capabilities and the shared default parameter schema. -/
theorem catalog_bootstrap_fixed_set :
    models initialCatalog = knownModels.map toProviderModel ∧
    initialCatalog.length = knownModels.length ∧
    (models initialCatalog).all
      (fun m => !m.capabilities.isEmpty && m.parameters == defaultParameters) = true := by
  decide

/-- C7: the resolution step of getModel fails with the not-found error exactly
when the id is absent from the catalog; a nonexistent id fails, and the
bootstrap id black-forest-labs/flux-schnell resolves to an entry whose
capabilities include text-to-image. -/
theorem resolveModel_notFound_iff (catalog : Catalog) (modelId : String) :
    (resolveModel catalog modelId = Except.error (GetModelError.notFound modelId) ↔
      mapGet catalog modelId = none) ∧
    resolveModel initialCatalog "nonexistent/model" =
      Except.error (GetModelError.notFound "nonexistent/model") ∧
    ∃ m, resolveModel initialCatalog "black-forest-labs/flux-schnell" = Except.ok m ∧
      MediaCapability.text_to_image ∈ m.capabilities := by
  refine ⟨?_, rfl, ⟨_, rfl, by decide⟩⟩
  cases h : mapGet catalog modelId <;> simp [resolveModel, h]

/-- C9: when no client is configured, getModel throws the not-configured
error for every id and catalog, including bootstrap ids already present in
the catalog, so catalog membership alone does not make getModel succeed. -/
theorem getModel_unconfigured_throws (st : ProviderState) (catalog : Catalog)
    (modelId : String) (h : st.client = none) :
    getModel st catalog modelId = Except.error GetModelError.notConfigured := by
  simp [getModel, h]

/-- C9 witness: an environment without token leaves the client absent, and
getModel on the bootstrap id black-forest-labs/flux-schnell still throws. -/
theorem getModel_unconfigured_throws_witness :
    (initialState none).client = none ∧
    getModel (initialState none) initialCatalog "black-forest-labs/flux-schnell" =
      Except.error GetModelError.notConfigured :=
  ⟨by decide, getModel_unconfigured_throws (initialState none) initialCatalog
    "black-forest-labs/flux-schnell" (by decide)⟩

/-- C4 counterexample: a configure call whose config lacks the credential
throws, but the stored configuration does not remain in its prior state: it
has been replaced by the credential-less value before the throw. -/
theorem configure_prior_state_counterexample :
    (configure { config := some { apiKey := some "old-key" },
                 client := some { apiKey := "old-key", timeout := 600000, retries := 2 } }
       { apiKey := none }).2 = some "Replicate API token is required" ∧
    (configure { config := some { apiKey := some "old-key" },
                 client := some { apiKey := "old-key", timeout := 600000, retries := 2 } }
       { apiKey := none }).1.config ≠ some { apiKey := some "old-key" } := by
  decide

/-- C4 amended: for every configuration value lacking a credential, configure
fails with the configuration error and leaves the client unchanged, but the
stored configuration has already been replaced by the new value. -/
theorem configure_missing_key_amended (st : ProviderState) (config : ProviderConfig)
    (h : config.apiKey.getD "" = "") :
    (configure st config).2 = some "Replicate API token is required" ∧
    (configure st config).1.client = st.client ∧
    (configure st config).1.config = some config := by
  simp [configure, h]

/-- C4 amended witness: the amended statement at a concrete prior state and a
concrete credential-less config. -/
theorem configure_missing_key_amended_witness :
    (({ apiKey := none } : ProviderConfig).apiKey.getD "" = "") ∧
    ((configure { config := some { apiKey := some "old-key" },
                  client := some { apiKey := "old-key", timeout := 600000, retries := 2 } }
        { apiKey := none }).2 = some "Replicate API token is required" ∧
      (configure { config := some { apiKey := some "old-key" },
                   client := some { apiKey := "old-key", timeout := 600000, retries := 2 } }
         { apiKey := none }).1.client =
        ({ config := some { apiKey := some "old-key" },
           client := some { apiKey := "old-key", timeout := 600000, retries := 2 } } :
          ProviderState).client ∧
      (configure { config := some { apiKey := some "old-key" },
                   client := some { apiKey := "old-key", timeout := 600000, retries := 2 } }
         { apiKey := none }).1.config = some { apiKey := none }) :=
  ⟨rfl, configure_missing_key_amended
    { config := some { apiKey := some "old-key" },
      client := some { apiKey := "old-key", timeout := 600000, retries := 2 } }
    { apiKey := none } rfl⟩

/-- C10: getModelsForCapability is an idempotent pure read: the same catalog
gives identical results on repeated calls, the result contains exactly the
catalog models whose capabilities include the capability, and it is a
subsequence of the full model listing. -/
theorem getModelsForCapability_pure_filter (catalog : Catalog) (c : MediaCapability)
    (m : ProviderModel) :
    getModelsForCapability catalog c = getModelsForCapability catalog c ∧
    (m ∈ getModelsForCapability catalog c ↔ m ∈ models catalog ∧ c ∈ m.capabilities) ∧
    List.Sublist (getModelsForCapability catalog c) (models catalog) := by
  refine ⟨rfl, ?_, ?_⟩
  · simp [getModelsForCapability, List.mem_filter]
  · exact List.filter_sublist _

/-- C1: the enrichment merge skips records without id, leaves the whole
catalog unchanged when the id is already a key (bootstrap wins), and
otherwise appends a new entry whose name, description and parameters follow
the documented fallbacks and whose capabilities come from the classifier. -/
theorem merge_rule (catalog : Catalog) (r : ModelData) :
    performModelDiscovery catalog [r] = mergeDiscovered catalog r ∧
    (r.id = none → mergeDiscovered catalog r = catalog) ∧
    (∀ id, r.id = some id → mapHas catalog id = true → mergeDiscovered catalog r = catalog) ∧
    (∀ id, r.id = some id → id ≠ "" → mapHas catalog id = false →
      ∃ e, mergeDiscovered catalog r = catalog ++ [(id, e)] ∧
        e.id = id ∧
        e.capabilities = inferCapabilitiesFromModel r ∧
        e.parameters = r.parameters.getD [] ∧
        (r.name = none → lastSegment id ≠ "" → e.name = lastSegment id) ∧
        (r.description = none → e.description = some ("Replicate model: " ++ id))) := by
  refine ⟨rfl, ?_, ?_, ?_⟩
  · intro h
    simp [mergeDiscovered, h]
  · intro id hid hhas
    by_cases h0 : (id == "") = true
    · simp [mergeDiscovered, hid, h0]
    · simp [mergeDiscovered, hid, h0, hhas]
  · intro id hid hne hhas
    have h0 : (id == "") = false := by simpa using hne
    have hhas' : catalog.any (fun p => p.1 == id) = false := by simpa [mapHas] using hhas
    refine ⟨{ id := id,
              name := jsOrS (jsOrS (r.name.getD "") (lastSegment id)) id,
              description := some (jsOrS (r.description.getD "") ("Replicate model: " ++ id)),
              capabilities := inferCapabilitiesFromModel r,
              parameters := r.parameters.getD [] }, ?_, rfl, rfl, rfl, ?_, ?_⟩
    · simp [mergeDiscovered, hid, h0, hhas, mapSet, hhas']
    · intro hn hseg
      simp [jsOrS, hn, hseg]
    · intro hd
      simp [jsOrS, hd]

/-- C1 witness: merging the unknown record acme/widget-123 into the bootstrap
catalog appends exactly one entry with all fallback fields. -/
theorem merge_rule_witness :
    ∃ e, mergeDiscovered initialCatalog { id := some "acme/widget-123" } =
        initialCatalog ++ [("acme/widget-123", e)] ∧
      e.id = "acme/widget-123" ∧
      e.capabilities = inferCapabilitiesFromModel { id := some "acme/widget-123" } ∧
      e.parameters = [] ∧
      ((none : Option String) = none → lastSegment "acme/widget-123" ≠ "" →
        e.name = lastSegment "acme/widget-123") ∧
      ((none : Option String) = none →
        e.description = some ("Replicate model: " ++ "acme/widget-123")) :=
  (merge_rule initialCatalog { id := some "acme/widget-123" }).2.2.2 "acme/widget-123" rfl
    (by decide) (by decide)

/-- C5: the classifier always returns a non-empty capability list; when none
of its five trigger conditions fires it returns exactly the text-to-image
singleton; and every entry of the catalog after bootstrap and any discovery
pass has a non-empty capability list. -/
theorem classifier_nonempty_fallback (r : ModelData) (rs : List ModelData) (m : ProviderModel)
    (hm : m ∈ models (performModelDiscovery initialCatalog rs)) :
    inferCapabilitiesFromModel r ≠ [] ∧
    (imageHit (lc (r.id.getD "")) (lc (r.description.getD "")) = false →
      videoHit (lc (r.id.getD "")) (lc (r.description.getD "")) = false →
      audioHit (lc (r.id.getD "")) (lc (r.description.getD "")) = false →
      enhanceHit (lc (r.id.getD "")) (lc (r.description.getD "")) = false →
      i2vHit (lc (r.id.getD "")) (lc (r.description.getD "")) = false →
      inferCapabilitiesFromModel r = [MediaCapability.text_to_image]) ∧
    m.capabilities ≠ [] := by
  refine ⟨inferCapabilities_ne_nil r, ?_, caps_ne_nil_discovery rs caps_ne_nil_initial m hm⟩
  intro h1 h2 h3 h4 h5
  simp [inferCapabilitiesFromModel, h1, h2, h3, h4, h5]

/-- C5 witness: the record acme/widget-123 matches no trigger and classifies
to the fallback singleton, and a concrete bootstrap entry of the catalog
after an empty discovery pass has non-empty capabilities. -/
theorem classifier_nonempty_fallback_witness :
    (toProviderModel
        { id := "black-forest-labs/flux-schnell", name := "FLUX.1 Schnell",
          description := "Fast and high-quality text-to-image generation",
          capabilities := [MediaCapability.text_to_image] } ∈
      models (performModelDiscovery initialCatalog [])) ∧
    (inferCapabilitiesFromModel { id := some "acme/widget-123" } ≠ [] ∧
      (imageHit (lc "acme/widget-123") (lc "") = false →
        videoHit (lc "acme/widget-123") (lc "") = false →
        audioHit (lc "acme/widget-123") (lc "") = false →
        enhanceHit (lc "acme/widget-123") (lc "") = false →
        i2vHit (lc "acme/widget-123") (lc "") = false →
        inferCapabilitiesFromModel { id := some "acme/widget-123" } =
          [MediaCapability.text_to_image]) ∧
      (toProviderModel
          { id := "black-forest-labs/flux-schnell", name := "FLUX.1 Schnell",
            description := "Fast and high-quality text-to-image generation",
            capabilities := [MediaCapability.text_to_image] }).capabilities ≠ []) :=
  ⟨by decide, classifier_nonempty_fallback { id := some "acme/widget-123" } [] _ (by decide)⟩

/-- C8: for a configured provider and an id present in the catalog, getModel
constructs the wrapper of the first matching capability in the priority order
text-to-image, text-to-video, text-to-audio, defaulting to the text-to-image
wrapper when none of the three is present. -/
theorem getModel_dispatch_priority (st : ProviderState) (catalog : Catalog) (modelId : String)
    (client : ReplicateConfig) (m : ProviderModel)
    (hc : st.client = some client) (hm : mapGet catalog modelId = some m) :
    getModel st catalog modelId =
      Except.ok (wrapperOf ((dispatchPriority.filter
        (fun c => m.capabilities.contains c)).headD MediaCapability.text_to_image) modelId) := by
  by_cases h1 : MediaCapability.text_to_image ∈ m.capabilities <;>
    by_cases h2 : MediaCapability.text_to_video ∈ m.capabilities <;>
      by_cases h3 : MediaCapability.text_to_audio ∈ m.capabilities <;>
        simp [getModel, resolveModel, hc, hm, dispatchPriority, wrapperOf, h1, h2, h3,
          List.filter_cons]

/-- C8 witness: the audio-only bootstrap model meta/musicgen dispatches to
the text-to-audio wrapper chosen by the priority order. -/
theorem getModel_dispatch_priority_witness :
    (initialState (some "token")).client =
      some { apiKey := "token", timeout := 600000, retries := 2 } ∧
    mapGet initialCatalog "meta/musicgen" = some (toProviderModel
      { id := "meta/musicgen", name := "MusicGen",
        description := "Meta\x27s music generation model",
        capabilities := [MediaCapability.text_to_audio] }) ∧
    getModel (initialState (some "token")) initialCatalog "meta/musicgen" =
      Except.ok (wrapperOf ((dispatchPriority.filter (fun c =>
          (toProviderModel
            { id := "meta/musicgen", name := "MusicGen",
              description := "Meta\x27s music generation model",
              capabilities := [MediaCapability.text_to_audio] }).capabilities.contains c)).headD
        MediaCapability.text_to_image) "meta/musicgen") :=
  ⟨by decide, by decide,
    getModel_dispatch_priority (initialState (some "token")) initialCatalog "meta/musicgen"
      { apiKey := "token", timeout := 600000, retries := 2 }
      (toProviderModel
        { id := "meta/musicgen", name := "MusicGen",
          description := "Meta\x27s music generation model",
          capabilities := [MediaCapability.text_to_audio] }) (by decide) (by decide)⟩

/-- C2 counterexample: the substrings flux and tts occur in the description
of this record, so the claim requires text-to-image and text-to-audio in the
output, yet the classifier returns only text-to-video: those substrings are
checked against the id only. -/
theorem classifier_counterexample :
    containsTok (lc "flux tts") "flux" = true ∧
    containsTok (lc "flux tts") "tts" = true ∧
    inferCapabilitiesFromModel
        { id := some "acme/video-maker", description := some "flux tts" } =
      [MediaCapability.text_to_video] := by
  decide

/-- C2 amended: a capability is in the classifier output exactly when its
per-field trigger condition fires — for the id and the description the code
checks different substring lists — or, for text-to-image only, when no
trigger condition of any capability fires (the fallback). -/
theorem classifier_membership_amended (r : ModelData) (c : MediaCapability) :
    c ∈ inferCapabilitiesFromModel r ↔
      (capTrigger c (lc (r.id.getD "")) (lc (r.description.getD "")) = true ∨
        (c = MediaCapability.text_to_image ∧
          imageHit (lc (r.id.getD "")) (lc (r.description.getD "")) = false ∧
          videoHit (lc (r.id.getD "")) (lc (r.description.getD "")) = false ∧
          audioHit (lc (r.id.getD "")) (lc (r.description.getD "")) = false ∧
          enhanceHit (lc (r.id.getD "")) (lc (r.description.getD "")) = false ∧
          i2vHit (lc (r.id.getD "")) (lc (r.description.getD "")) = false)) := by
  cases h1 : imageHit (lc (r.id.getD "")) (lc (r.description.getD "")) <;>
    cases h2 : videoHit (lc (r.id.getD "")) (lc (r.description.getD "")) <;>
      cases h3 : audioHit (lc (r.id.getD "")) (lc (r.description.getD "")) <;>
        cases h4 : enhanceHit (lc (r.id.getD "")) (lc (r.description.getD "")) <;>
          cases h5 : i2vHit (lc (r.id.getD "")) (lc (r.description.getD "")) <;>
            cases c <;>
              simp [inferCapabilitiesFromModel, capTrigger, h1, h2, h3, h4, h5]

/-- Discovery record arriving only after the timeout has settled the race. -/
def lateRecord : ModelData := { id := some "acme/late-model" }

/-- C3 counterexample: the listing settles at 40000 ms, so the 30000 ms
timeout settled the race first, yet the late record is still merged: the
model list grows beyond the bootstrap size, so late entries are applied
rather than discarded. -/
theorem timeout_discard_counterexample :
    timeoutWinsRace (ListingOutcome.settles 40000 [lateRecord]) = true ∧
    (models (catalogAfterDiscovery initialCatalog
        (ListingOutcome.settles 40000 [lateRecord]))).length =
      (models initialCatalog).length + 1 ∧
    (models (catalogAfterDiscovery initialCatalog
        (ListingOutcome.settles 40000 [lateRecord]))).length ≠
      (models initialCatalog).length := by
  decide

/-- C3 amended: when the timeout settles first, the background run still
returns normally (no exception escapes), but a listing that settles later is
not discarded: its records are merged; only a listing that never settles or
fails leaves the model list at the bootstrap state. -/
theorem timeout_race_amended (o : ListingOutcome) (h : timeoutWinsRace o = true) :
    discoverModelsInBackgroundRun initialCatalog o =
      Except.ok (catalogAfterDiscovery initialCatalog o) ∧
    (∀ t results, o = ListingOutcome.settles t results →
      catalogAfterDiscovery initialCatalog o = performModelDiscovery initialCatalog results) ∧
    (o = ListingOutcome.pending →
      models (catalogAfterDiscovery initialCatalog o) = models initialCatalog) ∧
    (∀ t, o = ListingOutcome.fails t →
      models (catalogAfterDiscovery initialCatalog o) = models initialCatalog) := by
  refine ⟨rfl, ?_, ?_, ?_⟩
  · rintro t results rfl
    rfl
  · rintro rfl
    rfl
  · rintro t rfl
    rfl

/-- C3 amended witness: the amended statement at the concrete late listing
that settles at 40000 ms with one new record. -/
theorem timeout_race_amended_witness :
    timeoutWinsRace (ListingOutcome.settles 40000 [lateRecord]) = true ∧
    (discoverModelsInBackgroundRun initialCatalog (ListingOutcome.settles 40000 [lateRecord]) =
      Except.ok (catalogAfterDiscovery initialCatalog
        (ListingOutcome.settles 40000 [lateRecord])) ∧
    (∀ t results, ListingOutcome.settles 40000 [lateRecord] = ListingOutcome.settles t results →
      catalogAfterDiscovery initialCatalog (ListingOutcome.settles 40000 [lateRecord]) =
        performModelDiscovery initialCatalog results) ∧
    (ListingOutcome.settles 40000 [lateRecord] = ListingOutcome.pending →
      models (catalogAfterDiscovery initialCatalog (ListingOutcome.settles 40000 [lateRecord])) =
        models initialCatalog) ∧
    (∀ t, ListingOutcome.settles 40000 [lateRecord] = ListingOutcome.fails t →
      models (catalogAfterDiscovery initialCatalog (ListingOutcome.settles 40000 [lateRecord])) =
        models initialCatalog)) :=
  ⟨by decide, timeout_race_amended (ListingOutcome.settles 40000 [lateRecord]) (by decide)⟩

end Replicate
